import Mathlib

/-!
# Verification of the cloud-billing core components

A shallow embedding, in Lean 4, of the core components of the
`cloud-billing` repository:

* the Alibaba Cloud paginated bill fetch
  (`cloud_billing/alibaba_cloud/client.py`), and
* the Azure asynchronous report-retrieval client
  (`cloud_billing/azure_cloud/client.py` and
  `cloud_billing/azure_cloud/types.py`).

Python functions are translated into pure Lean functions.  Network I/O is
made explicit: each operation receives the remote endpoint as a function
from requests to responses and additionally returns the list (or number)
of requests it issued, so that properties such as "no retry looping" or
"no network call before validation" are expressible.  Machine floats of
the source are modelled as exact rationals (`ℚ`): the claims under study
only parse and re-serialize numbers, they never exercise binary rounding.
Python's `json.loads` is modelled by giving each HTTP response, next to
its raw text, the optional JSON value that the text decodes to.

String utilities (`strip`, `splitlines`, splitting on a separator) are
reimplemented over `List Char` so that all definitions reduce inside the
kernel; they follow Python semantics on the fragment the code exercises
(`str.strip` of the ASCII whitespace characters, `str.splitlines` on
`\r\n`, `\r` and `\n` without a trailing empty line, CSV fields split on
commas -- quoted fields are not used by the claims under study).
-/

namespace CloudBilling

/-- Decidable equality of `Except` results (for evaluating concrete
scenarios inside proofs). -/
instance {ε α : Type} [DecidableEq ε] [DecidableEq α] : DecidableEq (Except ε α) := fun a b =>
  match a, b with
  | .ok x, .ok y => decidable_of_iff (x = y) (by simp)
  | .error x, .error y => decidable_of_iff (x = y) (by simp)
  | .ok _, .error _ => isFalse (by simp)
  | .error _, .ok _ => isFalse (by simp)

/-- ASCII whitespace, as stripped by Python's `str.strip()`. -/
def pyIsSpace (c : Char) : Bool :=
  c = ' ' || c = '\t' || c = '\n' || c = '\r' || c = '\x0b' || c = '\x0c'

/-- Python `str.strip()`: remove leading and trailing whitespace. -/
def pyStrip (s : String) : String :=
  ⟨((s.data.dropWhile pyIsSpace).reverse.dropWhile pyIsSpace).reverse⟩

/-- Split a character list on a separator character (Python `str.split(sep)`). -/
def splitOnCharList (sep : Char) : List Char → List (List Char)
  | [] => [[]]
  | c :: rest =>
    let r := splitOnCharList sep rest
    if c = sep then [] :: r
    else
      match r with
      | g :: gs => (c :: g) :: gs
      | [] => [[c]]

/-- Python `str.split(sep)` for a one-character separator. -/
def pySplitOn (sep : Char) (s : String) : List String :=
  (splitOnCharList sep s.data).map (fun g => ⟨g⟩)

/-- Python `str.splitlines()`: split on `\r\n`, `\r` and `\n`; a trailing
line terminator produces no trailing empty line. -/
def splitlinesList : List Char → List Char → List (List Char)
  | [], cur => if cur.isEmpty then [] else [cur.reverse]
  | '\r' :: '\n' :: rest, cur => cur.reverse :: splitlinesList rest []
  | '\r' :: rest, cur => cur.reverse :: splitlinesList rest []
  | '\n' :: rest, cur => cur.reverse :: splitlinesList rest []
  | c :: rest, cur => splitlinesList rest (c :: cur)

/-- Python `str.splitlines()`. -/
def pySplitlines (s : String) : List String :=
  (splitlinesList s.data []).map (fun g => ⟨g⟩)

/-- Python truthiness of an optional string (`None` and `""` are falsy). -/
def truthyStr : Option String → Bool
  | none => false
  | some s => s ≠ ""

/-- `use_token = token if token else self._current_token`, followed by the
`if not use_token` guard, shared by all Azure client operations. -/
def pickToken (token cached : Option String) : Option String :=
  let use := if truthyStr token then token else cached
  if truthyStr use then use else none

/-! ## Alibaba Cloud paginated bill fetch (`alibaba_cloud/client.py`)

The remote provider is modelled as a function from the request index to
the (already schema-validated) page it returns, and the unbounded
`while True:` loop is run on explicit fuel: `FetchState.running` means
the loop had not yet exited after consuming all fuel, i.e. it was still
issuing requests.  Bill items are opaque to the pagination control flow,
so pages are polymorphic in the item type. -/

/-- `_validate_billing_cycle`: Python `re.match(r"^\d{4}-\d{2}$", s)`.
`re.match` anchors at the start, and a non-MULTILINE `$` also matches
just before one trailing newline, so `"2025-12\n"` is accepted.  `\d` is
modelled as an ASCII digit. -/
def matchesBillingCycle (s : String) : Bool :=
  match s.data with
  | [a, b, c, d, e, f, g] =>
    a.isDigit && b.isDigit && c.isDigit && d.isDigit && e = '-' && f.isDigit && g.isDigit
  | [a, b, c, d, e, f, g, h] =>
    a.isDigit && b.isDigit && c.isDigit && d.isDigit && e = '-' && f.isDigit && g.isDigit
      && h = '\n'
  | _ => false

/-- `_has_more_data`: `bool(next_token and next_token.strip())`. -/
def _has_more_data : Option String → Bool
  | none => false
  | some t => t ≠ "" && pyStrip t ≠ ""

/-- One schema-validated page of a paginated response: the `Data.Items`
list and the `Data.NextToken` continuation cursor. -/
structure BillPage (α : Type) where
  Items : List α
  NextToken : Option String
deriving Repr

/-- Outcome of running a pagination loop on bounded fuel: `done items n`
means the loop exited normally after issuing `n` requests; `running` means
the fuel ran out with the loop still issuing requests (the source loop has
no other exit). -/
inductive FetchState (α : Type) where
  | done (items : List α) (requests : Nat)
  | running (items : List α) (requests : Nat)
deriving Repr

/-- The `while True:` loop of `fetch_instance_bill_by_billing_cycle`:
request page `i`, extend the accumulator with the page's items, stop when
`_has_more_data` rejects the returned cursor, otherwise carry the cursor
into the next request. -/
def fetchBillLoop {α : Type} (provider : Nat → BillPage α) :
    Nat → Nat → List α → FetchState α
  | 0, i, acc => .running acc i
  | fuel + 1, i, acc =>
    let page := provider i
    let acc2 := acc ++ page.Items
    if _has_more_data page.NextToken then fetchBillLoop provider fuel (i + 1) acc2
    else .done acc2 (i + 1)

/-- `fetch_instance_bill_by_billing_cycle`: validate the billing cycle,
then run the pagination loop.  The provider argument stands for the
remote endpoint (each page already validated against
`QueryInstanceBillResponse`); the error branch never consults it. -/
def fetch_instance_bill_by_billing_cycle {α : Type} (billing_cycle : String)
    (provider : Nat → BillPage α) (fuel : Nat) : Except String (FetchState α) :=
  if !matchesBillingCycle billing_cycle then
    .error s!"Invalid billing cycle format: {billing_cycle}, expected YYYY-MM"
  else
    .ok (fetchBillLoop provider fuel 0 [])

/-- The `while True:` loop of
`fetch_instance_amortized_cost_by_amortization_period`: extend the item
list, take the returned cursor, break when `_has_more_data` rejects it. -/
def fetchAmortizedLoop {α : Type} (provider : Nat → BillPage α) :
    Nat → Nat → List α → FetchState α
  | 0, i, acc => .running acc i
  | fuel + 1, i, acc =>
    let page := provider i
    let acc2 := acc ++ page.Items
    if _has_more_data page.NextToken then fetchAmortizedLoop provider fuel (i + 1) acc2
    else .done acc2 (i + 1)

/-- `fetch_instance_amortized_cost_by_amortization_period`: validate the
billing cycle, then run the (identical) pagination loop over the
amortized-cost action. -/
def fetch_instance_amortized_cost_by_amortization_period {α : Type}
    (billing_cycle : String) (provider : Nat → BillPage α) (fuel : Nat) :
    Except String (FetchState α) :=
  if !matchesBillingCycle billing_cycle then
    .error s!"Invalid billing cycle format: {billing_cycle}, expected YYYY-MM"
  else
    .ok (fetchAmortizedLoop provider fuel 0 [])

/-- An adversarial provider that returns the same non-blank cursor on
every page (one item per page). -/
def constCursorProvider : Nat → BillPage Nat := fun _ => ⟨[7], some "tok"⟩

/-- A two-page provider: page 0 carries 3 items and the cursor `"abc"`,
page 1 carries 2 items and a blank cursor. -/
def twoPageProvider : Nat → BillPage Nat := fun i =>
  if i = 0 then ⟨[1, 2, 3], some "abc"⟩ else ⟨[4, 5], some " "⟩

/-- Concatenation, in provider order, of the items of pages
`i, i+1, …, i+n-1`. -/
def pagesConcat {α : Type} (provider : Nat → BillPage α) : Nat → Nat → List α
  | _, 0 => []
  | i, n + 1 => (provider i).Items ++ pagesConcat provider (i + 1) n

/-! ## JSON values and HTTP exchanges (model of the Azure client's world)

`Json` models the Python objects returned by `json.loads`.  An HTTP
response carries its status code, its raw text, the optional JSON value
its text decodes to (standing for `json.loads(response.text)`; `none`
when the text is not valid JSON), and the optional `Location` response
header.  Requests record method, URL, the headers the client attached,
and the optional JSON payload, so that properties about what was sent
(and how many times) are expressible. -/

inductive Json where
  | null
  | bool (b : Bool)
  | num (q : ℚ)
  | str (s : String)
  | arr (elems : List Json)
  | obj (fields : List (String × Json))

/-- Python truthiness of a decoded JSON value. -/
def jTruthy : Json → Bool
  | .null => false
  | .bool b => b
  | .num q => q ≠ 0
  | .str s => s ≠ ""
  | .arr l => !l.isEmpty
  | .obj l => !l.isEmpty

/-- First binding of a key in a decoded JSON object. -/
def jsonLookup : List (String × Json) → String → Option Json
  | [], _ => none
  | (k, v) :: rest, key => if key = k then some v else jsonLookup rest key

/-- Python `d.get(key)`: `none` when the key is absent; raises
(`AttributeError`) when the receiver is not a dict. -/
def jsonGet? : Json → String → Except String (Option Json)
  | .obj fields, key => .ok (jsonLookup fields key)
  | _, _ => .error "AttributeError"

/-- Python `xs[0]` on a decoded JSON value (the source only reaches this
after establishing truthiness of `manifest.get("blobs")`; on a non-list
the subsequent attribute access raises, which the model folds into the
same raised-error outcome). -/
def jsonIndex0 : Json → Except String Json
  | .arr (x :: _) => .ok x
  | .arr [] => .error "IndexError: list index out of range"
  | _ => .error "TypeError: object is not subscriptable"

/-- Python `j == "some string"` for a decoded JSON value. -/
def jsonIsStr (j : Json) (s : String) : Bool :=
  match j with
  | .str t => t = s
  | _ => false

/-- Rendering of a JSON number under Python `str()`; the exact numeric
formatting is immaterial to every claim, only that the parsed body is
embedded into the message. -/
def renderRat (q : ℚ) : String :=
  if q.den = 1 then toString q.num else toString q.num ++ "/" ++ toString q.den

mutual

/-- Python `repr()` of a decoded JSON value (as used for values nested
inside a dict rendered by an f-string). -/
def Json.reprRender : Json → String
  | .null => "None"
  | .bool true => "True"
  | .bool false => "False"
  | .num q => renderRat q
  | .str s => "\x27" ++ s ++ "\x27"
  | .arr l => "[" ++ Json.reprRenderList l ++ "]"
  | .obj l => "\x7b" ++ Json.reprRenderFields l ++ "\x7d"

/-- Comma-separated `repr()` of the elements of a decoded JSON list. -/
def Json.reprRenderList : List Json → String
  | [] => ""
  | [j] => Json.reprRender j
  | j :: rest => Json.reprRender j ++ ", " ++ Json.reprRenderList rest

/-- Comma-separated `repr()` of the entries of a decoded JSON dict. -/
def Json.reprRenderFields : List (String × Json) → String
  | [] => ""
  | [(k, v)] => "\x27" ++ k ++ "\x27: " ++ Json.reprRender v
  | (k, v) :: rest =>
    "\x27" ++ k ++ "\x27: " ++ Json.reprRender v ++ ", " ++ Json.reprRenderFields rest

end

/-- Python `str()` of a decoded JSON value, as interpolated by an
f-string (`f"..., details: {error_details}"`). -/
def Json.render (j : Json) : String :=
  match j with
  | .str s => s
  | _ => Json.reprRender j

/-- An HTTP request as issued by the client. -/
structure HttpRequest where
  method : String
  url : String
  headers : List (String × String)
  jsonPayload : Option Json

/-- An HTTP response as seen by the client: `jsonBody` models
`json.loads(text)` (`none` when the text is not valid JSON) and
`locationHeader` models `response.headers.get("Location")`. -/
structure HttpResponse where
  statusCode : Nat
  text : String
  jsonBody : Option Json
  locationHeader : Option String

/-! ## Azure cost-report client (`azure_cloud/client.py`)

Each operation takes the client's cached token (`self._current_token`),
its explicit arguments, and the remote endpoint as a function from
requests to responses (for the sleeping retry loop of `get_ri_csv_url`,
from the attempt number to the response), and returns its Python result
together with the requests it issued. -/

/-- `BlobInfo` (`client.py`): status and manifest of a parsed blob
response.  Both fields keep the decoded JSON values `data.get(...)`
returned. -/
structure BlobInfo where
  status : Json
  manifest : Json

/-- `_parse_blob_response`: decode the body and read `status` (default
`""`) and `manifest` (default `{}`); a body that is not valid JSON raises
`ValueError("Failed to parse JSON response")`, a decoded non-dict raises
from the attribute access, wrapped as an `Error parsing blob info`. -/
def _parse_blob_response : Option Json → Except String BlobInfo
  | none => .error "Failed to parse JSON response"
  | some (.obj fields) =>
    .ok ⟨(jsonLookup fields "status").getD (.str ""), (jsonLookup fields "manifest").getD (.obj [])⟩
  | some _ => .error "Error parsing blob info: AttributeError"

/-- Result triple of `check_ri_report_once`: the Python
`(status, csv_url, error)` with `csv_url` only carried by `"completed"`
and the message only by `"error"`. -/
inductive CheckResult where
  | pending
  | completed (csvUrl : Option Json)
  | error (msg : String)

/-- The `status == "Completed"`/`manifest.get("blobs")` branch of
`check_ri_report_once` (lines 237-243): the `and` is short-circuiting, so
the manifest is only consulted when the status equals `"Completed"`;
raised exceptions are returned in `Except.error`. -/
def classifyBlob (blob : BlobInfo) : Except String CheckResult :=
  if jsonIsStr blob.status "Completed" then
    match jsonGet? blob.manifest "blobs" with
    | .error e => .error e
    | .ok (some blobs) =>
      if jTruthy blobs then
        match jsonIndex0 blobs with
        | .error e => .error e
        | .ok first =>
          match jsonGet? first "blobLink" with
          | .error e => .error e
          | .ok link? => .ok (.completed link?)
      else .ok (.error "Report completed but no CSV link found")
    | .ok none => .ok (.error "Report completed but no CSV link found")
  else .ok .pending

/-- The response classification of `check_ri_report_once`: 202 is
pending; 200 with a whitespace-only body is pending; otherwise the body
is parsed and classified, any raise becoming an
`Error parsing response` result; every other status is an error naming
the status code. -/
def checkResponseOnce (r : HttpResponse) : CheckResult :=
  if r.statusCode = 202 then .pending
  else if r.statusCode = 200 then
    if pyStrip r.text = "" then .pending
    else
      match _parse_blob_response r.jsonBody with
      | .error e => .error s!"Error parsing response: {e}"
      | .ok blob =>
        match classifyBlob blob with
        | .error e => .error s!"Error parsing response: {e}"
        | .ok res => res
  else .error s!"Unexpected status code: {r.statusCode}"

/-- The authorized GET issued by `check_ri_report_once` and
`get_ri_report` (`headers = {"Authorization": f"Bearer {use_token}"}`). -/
def authGetRequest (url t : String) : HttpRequest :=
  ⟨"GET", url, [("Authorization", "Bearer " ++ t)], none⟩

/-- `check_ri_report_once`: token guard, then exactly one GET against the
location URL, classified by `checkResponseOnce`. -/
def check_ri_report_once (cachedToken : Option String) (location_url : String)
    (token : Option String) (net : HttpRequest → HttpResponse) :
    CheckResult × List HttpRequest :=
  match pickToken token cachedToken with
  | none => (.error "No valid access token provided", [])
  | some use_token =>
    let req := authGetRequest location_url use_token
    (checkResponseOnce (net req), [req])

/-- `BILLING_API_VERSION` (`client.py`). -/
def BILLING_API_VERSION : String := "2023-08-01"

/-- `_build_billing_request_url`: `BILLING_BASE_URL.format(id)` plus the
api-version query parameter. -/
def _build_billing_request_url (billing_account_id : String) : String :=
  "https://management.chinacloudapi.cn/providers/Microsoft.Billing/billingAccounts/"
    ++ billing_account_id
    ++ "/providers/Microsoft.CostManagement/generateCostDetailsReport"
    ++ "?api-version=" ++ BILLING_API_VERSION

/-- `_prepare_billing_request_params`. -/
def _prepare_billing_request_params (start_date end_date metric : String) : Json :=
  .obj [("metric", .str metric),
        ("timePeriod", .obj [("start", .str start_date), ("end", .str end_date)])]

/-- The POST issued by `get_ri_location`. -/
def locationRequest (billing_account_id start_date end_date metric t : String) : HttpRequest :=
  ⟨"POST", _build_billing_request_url billing_account_id,
    [("Authorization", "Bearer " ++ t), ("Content-Type", "application/json")],
    some (_prepare_billing_request_params start_date end_date metric)⟩

/-- Append `, details: {parsed body}` to a failure message when the
response body decodes as JSON (the bare message otherwise, the
`except: pass` branch). -/
def failDetails (base : String) (r : HttpResponse) : String :=
  match r.jsonBody with
  | some j => base ++ ", details: " ++ Json.render j
  | none => base

/-- `get_ri_location`: token guard, one POST; 202 with a `Location`
header succeeds, 202 without one is the missing-header error, any other
status is a failure message carrying the status code and the parsed error
body when decodable. -/
def get_ri_location (cachedToken : Option String)
    (billing_account_id start_date end_date metric : String) (token : Option String)
    (net : HttpRequest → HttpResponse) :
    (Option String × Option String) × List HttpRequest :=
  match pickToken token cachedToken with
  | none => ((none, some "No valid access token provided"), [])
  | some use_token =>
    let req := locationRequest billing_account_id start_date end_date metric use_token
    let r := net req
    if r.statusCode = 202 then
      match r.locationHeader with
      | some loc => ((some loc, none), [req])
      | none => ((none, some "Location header not found in response"), [req])
    else
      ((none, some (failDetails s!"Request failed with status code: {r.statusCode}" r)), [req])

/-- `get_ri_report`: token guard, one GET; 200 returns the decoded JSON
(a JSON decode failure is reported), 202 is the still-generating message,
anything else a failure message with status and details. -/
def get_ri_report (cachedToken : Option String) (location_url : String)
    (token : Option String) (net : HttpRequest → HttpResponse) :
    (Option Json × Option String) × List HttpRequest :=
  match pickToken token cachedToken with
  | none => ((none, some "No valid access token provided"), [])
  | some use_token =>
    let req := authGetRequest location_url use_token
    let r := net req
    if r.statusCode = 200 then
      match r.jsonBody with
      | some j => ((some j, none), [req])
      | none => ((none, some "Failed to parse response JSON"), [req])
    else if r.statusCode = 202 then
      ((none, some "Report is still being generated, please retry later"), [req])
    else
      ((none, some (failDetails s!"Failed to fetch report, status code: {r.statusCode}" r)), [req])

/-- The 200-response classification of `get_ri_csv_url` (lines 275-286):
completed with blobs yields the blob link, a non-`Completed` status the
not-finished message, `Completed` without blobs the no-link message;
raises become `Error parsing response`. -/
def classifyCsvUrlBlob (blob : BlobInfo) : Except String (Option Json × Option String) :=
  if jsonIsStr blob.status "Completed" then
    match jsonGet? blob.manifest "blobs" with
    | .error e => .error e
    | .ok (some blobs) =>
      if jTruthy blobs then
        match jsonIndex0 blobs with
        | .error e => .error e
        | .ok first =>
          match jsonGet? first "blobLink" with
          | .error e => .error e
          | .ok link? => .ok (link?, none)
      else .ok (none, some "No valid CSV download link found in response")
    | .ok none => .ok (none, some "No valid CSV download link found in response")
  else
    .ok (none, some ("Report generation not finished, current status: " ++ Json.render blob.status))

/-- Parse-and-classify for one 200 response of `get_ri_csv_url`. -/
def classifyCsvUrl (decoded : Option Json) : Option Json × Option String :=
  match _parse_blob_response decoded with
  | .error e => (none, some s!"Error parsing response: {e}")
  | .ok blob =>
    match classifyCsvUrlBlob blob with
    | .error e => (none, some s!"Error parsing response: {e}")
    | .ok res => res

/-- The bounded blocking retry loop of `get_ri_csv_url`: a 200 response
returns its classification; any other status sleeps and retries, up to
`max_retries` attempts; the count of issued requests is returned. -/
def csvUrlLoop (max_retries : Nat) (net : Nat → HttpResponse) :
    Nat → Nat → (Option Json × Option String) × Nat
  | 0, made =>
    ((none, some s!"Exceeded maximum retries ({max_retries}), CSV download link not yet available"),
      made)
  | fuel + 1, made =>
    let r := net made
    if r.statusCode = 200 then (classifyCsvUrl r.jsonBody, made + 1)
    else csvUrlLoop max_retries net fuel (made + 1)

/-- `get_ri_csv_url`: token guard, then the bounded blocking poll loop. -/
def get_ri_csv_url (cachedToken : Option String) (location_url : String)
    (token : Option String) (max_retries : Nat) (net : Nat → HttpResponse) :
    (Option Json × Option String) × Nat :=
  match pickToken token cachedToken with
  | none => ((none, some "No valid access token provided"), 0)
  | some _use_token => csvUrlLoop max_retries net max_retries 0

/-- `download_ri_csv`: token guard, then one GET of the blob URL.  The
source issues `self.session.get(csv_url, timeout=60)` with NO headers
argument (line 318), so no `Authorization` header is attached even though
a usable token is required; 200 returns the raw content, any other status
the failure message with status code and decodable details. -/
def download_ri_csv (cachedToken : Option String) (csv_url : String)
    (token : Option String) (net : HttpRequest → HttpResponse) :
    (Option String × Option String) × List HttpRequest :=
  match pickToken token cachedToken with
  | none => ((none, some "No valid access token provided"), [])
  | some _use_token =>
    let req : HttpRequest := ⟨"GET", csv_url, [], none⟩
    let r := net req
    if r.statusCode = 200 then ((some r.text, none), [req])
    else
      ((none, some (failDetails s!"Failed to download CSV, status code: {r.statusCode}" r)), [req])

/-- The canonical completed poll body
`{"status": "Completed", "manifest": {"blobs": [{"blobLink": url}]}}`. -/
def completedBody (url : String) : Json :=
  .obj [("status", .str "Completed"),
        ("manifest", .obj [("blobs", .arr [.obj [("blobLink", .str url)]])])]

/-- The completed-but-empty-manifest poll body
`{"status": "Completed", "manifest": {}}`. -/
def completedNoBlobsBody : Json :=
  .obj [("status", .str "Completed"), ("manifest", .obj [])]

/-- An endpoint that always answers 202 with an empty body. -/
def net202 : HttpRequest → HttpResponse := fun _ => ⟨202, "", none, none⟩

/-- An endpoint that always answers 500 with an undecodable body. -/
def net500 : HttpRequest → HttpResponse := fun _ => ⟨500, "boom", none, none⟩

/-- An endpoint that always answers 200 with the canonical completed
body for the blob link `"https://blob/report.csv"`. -/
def netCompleted : HttpRequest → HttpResponse := fun _ =>
  ⟨200, "body", some (completedBody "https://blob/report.csv"), none⟩

/-- An endpoint that always answers 202 with a `Location` header. -/
def netLocation : HttpRequest → HttpResponse := fun _ =>
  ⟨202, "", none, some "https://x/report1"⟩

/-- An endpoint that always answers 200 with raw content `"csvbytes"`. -/
def netBytes : HttpRequest → HttpResponse := fun _ => ⟨200, "csvbytes", none, none⟩

/-- The response `net202` gives to the witness poll request. -/
def exPollResponse : HttpResponse := net202 (authGetRequest "https://x/report1" "T")

/-- The response `netLocation` gives to the witness start request. -/
def exLocResponse : HttpResponse :=
  netLocation (locationRequest "B" "2025-01-01" "2025-01-31" "ActualCost" "T")

/-- The witness download request and the response `netBytes` gives it. -/
def exDownloadRequest : HttpRequest := ⟨"GET", "https://blob/report.csv", [], none⟩

/-- The response `netBytes` gives to the witness download request. -/
def exDownloadResponse : HttpResponse := netBytes exDownloadRequest

/-! ## BillingRecord schema (`azure_cloud/types.py`)

CSV cells reach the pydantic model as Python values: a string, `None`
(the `restval` padding of `csv.DictReader`), or -- after a JSON-mode
re-serialization -- a number.  `PyValue` models these, with dates kept as
an explicit triple.  Validation is `Except`-valued: `.error` stands for
any exception escaping `model_validate` (pydantic `ValidationError` or a
raise inside a validator); the carried message texts are stand-ins, no
claim depends on them. -/

/-- A proleptic-Gregorian calendar date (`datetime.date`). -/
structure PyDate where
  year : Nat
  month : Nat
  day : Nat
deriving DecidableEq, Repr

/-- An exact rational standing in for a Python float, kept as a reduced
numerator/denominator pair (every value the parser produces is in lowest
terms with positive denominator, and zero is canonically `0/1`, like the
single zero float). -/
structure PyFloat where
  num : Int
  den : Nat
deriving DecidableEq, Repr

/-- The float `0.0`. -/
def PyFloat.zero : PyFloat := ⟨0, 1⟩

/-- A Python value occurring in a row fed to `BillingRecord`. -/
inductive PyValue where
  | none
  | str (s : String)
  | num (q : PyFloat)
  | date (d : PyDate)
deriving DecidableEq, Repr

/-- Python falsiness of such a value (`if not v`). -/
def pyFalsy : PyValue → Bool
  | .none => true
  | .str s => s = ""
  | .num q => q = PyFloat.zero
  | .date _ => false

/-- A row as produced by `csv.DictReader` (or by re-serialization):
field name to value. -/
abbrev Row := List (String × PyValue)

/-- First binding of a field name in a row. -/
def rowGet : Row → String → Option PyValue
  | [], _ => Option.none
  | (k, v) :: rest, key => if key = k then some v else rowGet rest key

/-- Numeric value of a digit list (caller checks digithood). -/
def natValUnchecked : List Char → Nat :=
  fun cs => cs.foldl (fun acc c => acc * 10 + (c.toNat - 48)) 0

/-- `strptime` `%m`/`%d`: one or two digits (range checked afterwards). -/
def parse12 (cs : List Char) : Option Nat :=
  if (cs.length = 1 || cs.length = 2) && cs.all Char.isDigit then
    some (natValUnchecked cs)
  else Option.none

/-- `strptime` `%Y`: exactly four digits. -/
def parse4 (cs : List Char) : Option Nat :=
  if cs.length = 4 && cs.all Char.isDigit then some (natValUnchecked cs) else Option.none

/-- Gregorian leap year (`datetime`). -/
def isLeap (y : Nat) : Bool := (y % 4 = 0 && !(y % 100 = 0)) || y % 400 = 0

/-- Days in a month (`datetime.date` validity). -/
def daysInMonth (y m : Nat) : Nat :=
  if m = 2 then (if isLeap y then 29 else 28)
  else if m = 4 || m = 6 || m = 9 || m = 11 then 30
  else 31

/-- `datetime.strptime(v, "%m/%d/%Y").date()`: `some` on success, `none`
when a `ValueError` is raised (wrong shape, out-of-range component, or an
invalid calendar date). -/
def strptimeMDY? (s : String) : Option PyDate :=
  match pySplitOn '/' s with
  | [ms, ds, ys] => do
    let m ← parse12 ms.data
    let d ← parse12 ds.data
    let y ← parse4 ys.data
    if 1 ≤ m && m ≤ 12 && 1 ≤ d && d ≤ daysInMonth y m && 1 ≤ y then
      some ⟨y, m, d⟩
    else Option.none
  | _ => Option.none

/-- The `parse_date` field validator (`types.py` lines 84-91): falsy
input becomes `None`; a string is parsed as `MM/DD/YYYY` with a
`ValueError` downgraded to `None`; any other truthy value makes
`strptime` raise a `TypeError`, which the validator does not catch. -/
def parse_date (v : PyValue) : Except String (Option PyDate) :=
  if pyFalsy v then .ok Option.none
  else
    match v with
    | .str s => .ok (strptimeMDY? s)
    | _ => .error "TypeError: strptime() argument 1 must be str"

/-- Split a character list at the first `e`/`E` (float exponent). -/
def breakOnExp : List Char → List Char × Option (List Char)
  | [] => ([], Option.none)
  | c :: rest =>
    if c = 'e' || c = 'E' then ([], some rest)
    else
      let r := breakOnExp rest
      (c :: r.1, r.2)

/-- Leading sign of a numeric literal: `(negative?, rest)`. -/
def parseSign : List Char → Bool × List Char
  | '+' :: rest => (false, rest)
  | '-' :: rest => (true, rest)
  | cs => (false, cs)

/-- Mantissa of a Python float literal (`digits`, `digits.digits`,
`digits.` or `.digits`), as an unreduced numerator/denominator pair. -/
def parseMantissa? (cs : List Char) : Option (Nat × Nat) :=
  match splitOnCharList '.' cs with
  | [ip] =>
    if !ip.isEmpty && ip.all Char.isDigit then some (natValUnchecked ip, 1) else Option.none
  | [ip, fp] =>
    if !(ip ++ fp).isEmpty && ip.all Char.isDigit && fp.all Char.isDigit then
      some (natValUnchecked (ip ++ fp), 10 ^ fp.length)
    else Option.none
  | _ => Option.none

/-- Exponent of a Python float literal. -/
def parseExp? (cs : List Char) : Option Int :=
  let sr := parseSign cs
  if !sr.2.isEmpty && sr.2.all Char.isDigit then
    some (if sr.1 then -(natValUnchecked sr.2 : Int) else (natValUnchecked sr.2 : Int))
  else Option.none

/-- Scale an unreduced fraction by `10 ^ e`. -/
def scaleByExp (n d : Nat) : Int → Nat × Nat
  | .ofNat k => (n * 10 ^ k, d)
  | .negSucc k => (n, d * 10 ^ (k + 1))

/-- Reduce a fraction to lowest terms and attach the sign (the zero float
is canonically `0/1`). -/
def normFloat (neg : Bool) (n d : Nat) : PyFloat :=
  let g := Nat.gcd n d
  if g = 0 then PyFloat.zero
  else ⟨if neg then -((n / g : Nat) : Int) else ((n / g : Nat) : Int), d / g⟩

/-- Python `float(s)` on a string: `some` the exact decimal value, `none`
when a `ValueError` is raised.  (`inf`/`nan`/underscore literals are not
modelled; no claim exercises them.  Exact rationals stand in for binary
floats: the claims only parse and re-serialize.) -/
def pyFloat? (s : String) : Option PyFloat :=
  let sr := parseSign (pyStrip s).data
  let me := breakOnExp sr.2
  match parseMantissa? me.1 with
  | Option.none => Option.none
  | some nd =>
    match me.2 with
    | Option.none => some (normFloat sr.1 nd.1 nd.2)
    | some ecs =>
      match parseExp? ecs with
      | Option.none => Option.none
      | some e =>
        let nd2 := scaleByExp nd.1 nd.2 e
        some (normFloat sr.1 nd2.1 nd2.2)

/-- The `parse_float` field validator (`types.py` lines 93-95):
`float(v) if v else 0.0`; a non-numeric truthy string raises
`ValueError`, a truthy non-string non-number raises `TypeError`. -/
def parse_float (v : PyValue) : Except String PyFloat :=
  if pyFalsy v then .ok PyFloat.zero
  else
    match v with
    | .num q => .ok q
    | .str s =>
      match pyFloat? s with
      | some q => .ok q
      | Option.none => .error "ValueError: could not convert string to float"
    | _ => .error "TypeError: float() argument must be a string or a real number"

/-- `ChargeType` (`types.py`): the six admissible `chargeType` values. -/
inductive ChargeType where
  | RoundingAdjustment
  | Purchase
  | Usage
  | Refund
  | Other
  | UnusedReservation
deriving DecidableEq, Repr

/-- The string value of a `ChargeType` member. -/
def ChargeType.value : ChargeType → String
  | .RoundingAdjustment => "RoundingAdjustment"
  | .Purchase => "Purchase"
  | .Usage => "Usage"
  | .Refund => "Refund"
  | .Other => "Other"
  | .UnusedReservation => "UnusedReservation"

/-- Lookup of a `ChargeType` member by value. -/
def ChargeType.ofString? (s : String) : Option ChargeType :=
  if s = "RoundingAdjustment" then some .RoundingAdjustment
  else if s = "Purchase" then some .Purchase
  else if s = "Usage" then some .Usage
  else if s = "Refund" then some .Refund
  else if s = "Other" then some .Other
  else if s = "UnusedReservation" then some .UnusedReservation
  else Option.none

/-- Validation of a required `str` field. -/
def reqStr (row : Row) (key : String) : Except String String :=
  match rowGet row key with
  | some (.str s) => .ok s
  | some _ => .error (key ++ ": Input should be a valid string")
  | Option.none => .error (key ++ ": Field required")

/-- Validation of an `Optional[str] = None` field value. -/
def optStrVal : PyValue → Except String (Option String)
  | .none => .ok Option.none
  | .str s => .ok (some s)
  | _ => .error "Input should be a valid string"

/-- Validation of an `Optional[str] = None` field (absent key takes the
default). -/
def optStr (row : Row) (key : String) : Except String (Option String) :=
  match rowGet row key with
  | Option.none => .ok Option.none
  | some v => optStrVal v

/-- Validation of an `Optional[date] = None` field with the `parse_date`
before-validator. -/
def optDateField (row : Row) (key : String) : Except String (Option PyDate) :=
  match rowGet row key with
  | Option.none => .ok Option.none
  | some v => parse_date v

/-- Validation of the required `Optional[date]` field populated by its
alias (`billing_date`, alias `date`). -/
def reqDateField (row : Row) (key : String) : Except String (Option PyDate) :=
  match rowGet row key with
  | Option.none => .error (key ++ ": Field required")
  | some v => parse_date v

/-- Validation of a required `float` field with the `parse_float`
before-validator. -/
def floatValidatedField (row : Row) (key : String) : Except String PyFloat :=
  match rowGet row key with
  | Option.none => .error (key ++ ": Field required")
  | some v => parse_float v

/-- Validation of a plain required `float` field (pydantic lax mode
coerces a numeric string, rejects everything else). -/
def laxFloat (row : Row) (key : String) : Except String PyFloat :=
  match rowGet row key with
  | Option.none => .error (key ++ ": Field required")
  | some (.num q) => .ok q
  | some (.str s) =>
    match pyFloat? s with
    | some q => .ok q
    | Option.none => .error (key ++ ": Input should be a valid number")
  | some _ => .error (key ++ ": Input should be a valid number")

/-- Validation of the `chargeType` enum field. -/
def chargeTypeField (row : Row) (key : String) : Except String ChargeType :=
  match rowGet row key with
  | some (.str s) =>
    match ChargeType.ofString? s with
    | some ct => .ok ct
    | Option.none => .error (key ++ ": Input should be a valid ChargeType")
  | some _ => .error (key ++ ": Input should be a valid ChargeType")
  | Option.none => .error (key ++ ": Field required")

/-- `BillingRecord` (`types.py` lines 17-82), fields in source order.
`billing_date` is populated from the alias `date`. -/
structure BillingRecord where
  invoiceId : String
  previousInvoiceId : String
  billingAccountId : String
  billingAccountName : String
  billingProfileId : String
  billingProfileName : String
  invoiceSectionId : String
  invoiceSectionName : String
  resellerName : Option String
  resellerMpnId : String
  costCenter : String
  billingPeriodEndDate : String
  billingPeriodStartDate : String
  servicePeriodStartDate : Option PyDate
  servicePeriodEndDate : Option PyDate
  billing_date : Option PyDate
  serviceFamily : String
  productOrderId : String
  productOrderName : String
  consumedService : String
  meterId : String
  meterName : String
  meterCategory : String
  meterSubCategory : String
  meterRegion : String
  ProductId : String
  ProductName : String
  SubscriptionId : String
  subscriptionName : Option String
  publisherType : String
  publisherId : String
  publisherName : String
  resourceGroupName : String
  ResourceId : String
  resourceLocation : String
  location : String
  effectivePrice : String
  quantity : String
  unitOfMeasure : String
  chargeType : ChargeType
  billingCurrency : String
  pricingCurrency : String
  costInBillingCurrency : PyFloat
  costInPricingCurrency : String
  costInUsd : PyFloat
  paygCostInBillingCurrency : PyFloat
  paygCostInUsd : PyFloat
  exchangeRatePricingToBilling : String
  exchangeRateDate : String
  isAzureCreditEligible : String
  serviceInfo1 : String
  serviceInfo2 : String
  additionalInfo : String
  tags : Option String
  PayGPrice : String
  frequency : String
  term : String
  reservationId : String
  reservationName : String
  pricingModel : String
  unitPrice : String
  costAllocationRuleName : String
  benefitId : String
  benefitName : String
  provider : String
deriving DecidableEq, Repr

/-- `BillingRecord.model_validate` on a row of Python values: each field
is read (by alias) and validated; the first failure aborts the whole
validation -- pydantic raises, no record is produced. -/
def BillingRecord.model_validate (row : Row) : Except String BillingRecord := do
  let invoiceId ← reqStr row "invoiceId"
  let previousInvoiceId ← reqStr row "previousInvoiceId"
  let billingAccountId ← reqStr row "billingAccountId"
  let billingAccountName ← reqStr row "billingAccountName"
  let billingProfileId ← reqStr row "billingProfileId"
  let billingProfileName ← reqStr row "billingProfileName"
  let invoiceSectionId ← reqStr row "invoiceSectionId"
  let invoiceSectionName ← reqStr row "invoiceSectionName"
  let resellerName ← optStr row "resellerName"
  let resellerMpnId ← reqStr row "resellerMpnId"
  let costCenter ← reqStr row "costCenter"
  let billingPeriodEndDate ← reqStr row "billingPeriodEndDate"
  let billingPeriodStartDate ← reqStr row "billingPeriodStartDate"
  let servicePeriodStartDate ← optDateField row "servicePeriodStartDate"
  let servicePeriodEndDate ← optDateField row "servicePeriodEndDate"
  let billing_date ← reqDateField row "date"
  let serviceFamily ← reqStr row "serviceFamily"
  let productOrderId ← reqStr row "productOrderId"
  let productOrderName ← reqStr row "productOrderName"
  let consumedService ← reqStr row "consumedService"
  let meterId ← reqStr row "meterId"
  let meterName ← reqStr row "meterName"
  let meterCategory ← reqStr row "meterCategory"
  let meterSubCategory ← reqStr row "meterSubCategory"
  let meterRegion ← reqStr row "meterRegion"
  let ProductId ← reqStr row "ProductId"
  let ProductName ← reqStr row "ProductName"
  let SubscriptionId ← reqStr row "SubscriptionId"
  let subscriptionName ← optStr row "subscriptionName"
  let publisherType ← reqStr row "publisherType"
  let publisherId ← reqStr row "publisherId"
  let publisherName ← reqStr row "publisherName"
  let resourceGroupName ← reqStr row "resourceGroupName"
  let ResourceId ← reqStr row "ResourceId"
  let resourceLocation ← reqStr row "resourceLocation"
  let location ← reqStr row "location"
  let effectivePrice ← reqStr row "effectivePrice"
  let quantity ← reqStr row "quantity"
  let unitOfMeasure ← reqStr row "unitOfMeasure"
  let chargeType ← chargeTypeField row "chargeType"
  let billingCurrency ← reqStr row "billingCurrency"
  let pricingCurrency ← reqStr row "pricingCurrency"
  let costInBillingCurrency ← floatValidatedField row "costInBillingCurrency"
  let costInPricingCurrency ← reqStr row "costInPricingCurrency"
  let costInUsd ← floatValidatedField row "costInUsd"
  let paygCostInBillingCurrency ← laxFloat row "paygCostInBillingCurrency"
  let paygCostInUsd ← laxFloat row "paygCostInUsd"
  let exchangeRatePricingToBilling ← reqStr row "exchangeRatePricingToBilling"
  let exchangeRateDate ← reqStr row "exchangeRateDate"
  let isAzureCreditEligible ← reqStr row "isAzureCreditEligible"
  let serviceInfo1 ← reqStr row "serviceInfo1"
  let serviceInfo2 ← reqStr row "serviceInfo2"
  let additionalInfo ← reqStr row "additionalInfo"
  let tags ← optStr row "tags"
  let PayGPrice ← reqStr row "PayGPrice"
  let frequency ← reqStr row "frequency"
  let term ← reqStr row "term"
  let reservationId ← reqStr row "reservationId"
  let reservationName ← reqStr row "reservationName"
  let pricingModel ← reqStr row "pricingModel"
  let unitPrice ← reqStr row "unitPrice"
  let costAllocationRuleName ← reqStr row "costAllocationRuleName"
  let benefitId ← reqStr row "benefitId"
  let benefitName ← reqStr row "benefitName"
  let provider ← reqStr row "provider"
  pure ⟨invoiceId, previousInvoiceId, billingAccountId, billingAccountName,
    billingProfileId, billingProfileName, invoiceSectionId, invoiceSectionName,
    resellerName, resellerMpnId, costCenter, billingPeriodEndDate,
    billingPeriodStartDate, servicePeriodStartDate, servicePeriodEndDate, billing_date,
    serviceFamily, productOrderId, productOrderName, consumedService,
    meterId, meterName, meterCategory, meterSubCategory, meterRegion,
    ProductId, ProductName, SubscriptionId, subscriptionName, publisherType,
    publisherId, publisherName, resourceGroupName, ResourceId, resourceLocation,
    location, effectivePrice, quantity, unitOfMeasure, chargeType,
    billingCurrency, pricingCurrency, costInBillingCurrency, costInPricingCurrency,
    costInUsd, paygCostInBillingCurrency, paygCostInUsd,
    exchangeRatePricingToBilling, exchangeRateDate, isAzureCreditEligible,
    serviceInfo1, serviceInfo2, additionalInfo, tags, PayGPrice, frequency,
    term, reservationId, reservationName, pricingModel, unitPrice,
    costAllocationRuleName, benefitId, benefitName, provider⟩

/-- JSON-mode serialization of an optional string. -/
def dumpOptStr : Option String → PyValue
  | Option.none => .none
  | some s => .str s

/-- Zero-padded two digits. -/
def pad2 (n : Nat) : String := if n < 10 then "0" ++ toString n else toString n

/-- Zero-padded four digits. -/
def pad4 (n : Nat) : String :=
  if n < 10 then "000" ++ toString n
  else if n < 100 then "00" ++ toString n
  else if n < 1000 then "0" ++ toString n
  else toString n

/-- `date.isoformat()`: `YYYY-MM-DD`. -/
def isoDate (d : PyDate) : String := pad4 d.year ++ "-" ++ pad2 d.month ++ "-" ++ pad2 d.day

/-- JSON-mode serialization of an optional date: ISO `YYYY-MM-DD` or
`None`. -/
def dumpDate : Option PyDate → PyValue
  | Option.none => .none
  | some d => .str (isoDate d)

/-- `model_dump` of a `BillingRecord` in JSON mode with `by_alias=True`:
strings stay strings, optional-and-absent values become `None`, dates
become ISO strings, floats stay numbers, the enum becomes its value. -/
def BillingRecord.model_dump (r : BillingRecord) : Row :=
  [("invoiceId", .str r.invoiceId),
   ("previousInvoiceId", .str r.previousInvoiceId),
   ("billingAccountId", .str r.billingAccountId),
   ("billingAccountName", .str r.billingAccountName),
   ("billingProfileId", .str r.billingProfileId),
   ("billingProfileName", .str r.billingProfileName),
   ("invoiceSectionId", .str r.invoiceSectionId),
   ("invoiceSectionName", .str r.invoiceSectionName),
   ("resellerName", dumpOptStr r.resellerName),
   ("resellerMpnId", .str r.resellerMpnId),
   ("costCenter", .str r.costCenter),
   ("billingPeriodEndDate", .str r.billingPeriodEndDate),
   ("billingPeriodStartDate", .str r.billingPeriodStartDate),
   ("servicePeriodStartDate", dumpDate r.servicePeriodStartDate),
   ("servicePeriodEndDate", dumpDate r.servicePeriodEndDate),
   ("date", dumpDate r.billing_date),
   ("serviceFamily", .str r.serviceFamily),
   ("productOrderId", .str r.productOrderId),
   ("productOrderName", .str r.productOrderName),
   ("consumedService", .str r.consumedService),
   ("meterId", .str r.meterId),
   ("meterName", .str r.meterName),
   ("meterCategory", .str r.meterCategory),
   ("meterSubCategory", .str r.meterSubCategory),
   ("meterRegion", .str r.meterRegion),
   ("ProductId", .str r.ProductId),
   ("ProductName", .str r.ProductName),
   ("SubscriptionId", .str r.SubscriptionId),
   ("subscriptionName", dumpOptStr r.subscriptionName),
   ("publisherType", .str r.publisherType),
   ("publisherId", .str r.publisherId),
   ("publisherName", .str r.publisherName),
   ("resourceGroupName", .str r.resourceGroupName),
   ("ResourceId", .str r.ResourceId),
   ("resourceLocation", .str r.resourceLocation),
   ("location", .str r.location),
   ("effectivePrice", .str r.effectivePrice),
   ("quantity", .str r.quantity),
   ("unitOfMeasure", .str r.unitOfMeasure),
   ("chargeType", .str r.chargeType.value),
   ("billingCurrency", .str r.billingCurrency),
   ("pricingCurrency", .str r.pricingCurrency),
   ("costInBillingCurrency", .num r.costInBillingCurrency),
   ("costInPricingCurrency", .str r.costInPricingCurrency),
   ("costInUsd", .num r.costInUsd),
   ("paygCostInBillingCurrency", .num r.paygCostInBillingCurrency),
   ("paygCostInUsd", .num r.paygCostInUsd),
   ("exchangeRatePricingToBilling", .str r.exchangeRatePricingToBilling),
   ("exchangeRateDate", .str r.exchangeRateDate),
   ("isAzureCreditEligible", .str r.isAzureCreditEligible),
   ("serviceInfo1", .str r.serviceInfo1),
   ("serviceInfo2", .str r.serviceInfo2),
   ("additionalInfo", .str r.additionalInfo),
   ("tags", dumpOptStr r.tags),
   ("PayGPrice", .str r.PayGPrice),
   ("frequency", .str r.frequency),
   ("term", .str r.term),
   ("reservationId", .str r.reservationId),
   ("reservationName", .str r.reservationName),
   ("pricingModel", .str r.pricingModel),
   ("unitPrice", .str r.unitPrice),
   ("costAllocationRuleName", .str r.costAllocationRuleName),
   ("benefitId", .str r.benefitId),
   ("benefitName", .str r.benefitName),
   ("provider", .str r.provider)]

/-! ## CSV parsing stage of `get_ri_csv_as_json` (lines 358-366) -/

/-- `bytes.decode("utf-8-sig")`: strip one leading byte-order mark.  (The
model works on the decoded character sequence; an invalid-UTF-8 byte
stream is outside it, and no claim exercises one.) -/
def stripBom (s : String) : String :=
  match s.data with
  | c :: rest => if c = '\uFEFF' then ⟨rest⟩ else s
  | [] => s

/-- `csv.DictReader` padding: zip a row's cells with the header, absent
cells becoming the `restval` `None`, surplus cells dropped. -/
def zipRowAux : List String → List String → Row
  | [], _ => []
  | h :: hs, [] => (h, .none) :: zipRowAux hs []
  | h :: hs, c :: cs => (h, .str c) :: zipRowAux hs cs

/-- `csv.DictReader(csv_str.splitlines())`: first (non-empty) line is the
header, every further non-empty line is split on commas and zipped with
it.  (Quoted fields are not modelled; no claim exercises them.) -/
def dictReaderRows (content : String) : List Row :=
  match (pySplitlines content).filter (fun l => l != "") with
  | [] => []
  | header :: dataLines =>
    dataLines.map (fun l => zipRowAux (pySplitOn ',' header) (pySplitOn ',' l))

/-- The row loop of `get_ri_csv_as_json`: each row is validated and
yielded as `(record, None)`; the first validation failure is caught by
the surrounding `except Exception` and yielded as `(None, error)`, after
which the generator stops. -/
def yieldRows : List Row → List (Option BillingRecord × Option String)
  | [] => []
  | row :: rest =>
    match BillingRecord.model_validate row with
    | .ok record => (some record, Option.none) :: yieldRows rest
    | .error e => [(Option.none, some s!"Error converting CSV to records: {e}")]

/-- The parsing stage of `get_ri_csv_as_json` (lines 358-366): decode
with BOM stripping, read the header line, validate and yield each row. -/
def get_ri_csv_as_json_parse (csv_content : String) :
    List (Option BillingRecord × Option String) :=
  yieldRows (dictReaderRows (stripBom csv_content))

/-- Join strings with a separator. -/
def joinSep (sep : String) : List String → String
  | [] => ""
  | [x] => x
  | x :: xs => x ++ sep ++ joinSep sep xs

/-- The 65 CSV column names (the field aliases, in source order). -/
def billingHeaderNames : List String :=
  ["invoiceId", "previousInvoiceId", "billingAccountId", "billingAccountName",
   "billingProfileId", "billingProfileName", "invoiceSectionId", "invoiceSectionName",
   "resellerName", "resellerMpnId", "costCenter", "billingPeriodEndDate",
   "billingPeriodStartDate", "servicePeriodStartDate", "servicePeriodEndDate", "date",
   "serviceFamily", "productOrderId", "productOrderName", "consumedService",
   "meterId", "meterName", "meterCategory", "meterSubCategory",
   "meterRegion", "ProductId", "ProductName", "SubscriptionId",
   "subscriptionName", "publisherType", "publisherId", "publisherName",
   "resourceGroupName", "ResourceId", "resourceLocation", "location",
   "effectivePrice", "quantity", "unitOfMeasure", "chargeType",
   "billingCurrency", "pricingCurrency", "costInBillingCurrency", "costInPricingCurrency",
   "costInUsd", "paygCostInBillingCurrency", "paygCostInUsd", "exchangeRatePricingToBilling",
   "exchangeRateDate", "isAzureCreditEligible", "serviceInfo1", "serviceInfo2",
   "additionalInfo", "tags", "PayGPrice", "frequency",
   "term", "reservationId", "reservationName", "pricingModel",
   "unitPrice", "costAllocationRuleName", "benefitId", "benefitName",
   "provider"]

/-- Cells of a well-formed CSV data row (aligned with
`billingHeaderNames`; the `date` cell is `01/31/2025`, `costInUsd` is
empty). -/
def goodRowCells : List String :=
  ["inv1", "x", "x", "x",
   "x", "x", "x", "x",
   "r", "x", "x", "x",
   "x", "", "", "01/31/2025",
   "x", "x", "x", "x",
   "x", "x", "x", "x",
   "x", "x", "x", "x",
   "x", "x", "x", "x",
   "x", "x", "x", "x",
   "x", "x", "x", "Usage",
   "x", "x", "12.5", "1",
   "", "0", "2.5", "x",
   "x", "x", "x", "x",
   "x", "k:v", "x", "x",
   "x", "x", "x", "x",
   "x", "x", "x", "x",
   "x"]

/-- Cells of a malformed CSV data row: same as `goodRowCells` but with
the out-of-enumeration `chargeType` value `Weird`. -/
def badRowCells : List String :=
  ["inv1", "x", "x", "x",
   "x", "x", "x", "x",
   "r", "x", "x", "x",
   "x", "", "", "01/31/2025",
   "x", "x", "x", "x",
   "x", "x", "x", "x",
   "x", "x", "x", "x",
   "x", "x", "x", "x",
   "x", "x", "x", "x",
   "x", "x", "x", "Weird",
   "x", "x", "12.5", "1",
   "", "0", "2.5", "x",
   "x", "x", "x", "x",
   "x", "k:v", "x", "x",
   "x", "x", "x", "x",
   "x", "x", "x", "x",
   "x"]

/-- The well-formed example row, as `csv.DictReader` delivers it. -/
def goodRow : Row := zipRowAux billingHeaderNames goodRowCells

/-- The malformed example row. -/
def badRow : Row := zipRowAux billingHeaderNames badRowCells

/-- A concrete downloaded CSV: BOM, header line, a good row, a bad row,
another good row. -/
def exCsvContent : String :=
  "\uFEFF" ++ joinSep "," billingHeaderNames ++ "\n"
    ++ joinSep "," goodRowCells ++ "\n"
    ++ joinSep "," badRowCells ++ "\n"
    ++ joinSep "," goodRowCells ++ "\n"

/-- A concrete `BillingRecord` whose three date fields are null. -/
def exRecord : BillingRecord :=
  ⟨"inv1", "x", "x", "x",
   "x", "x", "x", "x",
   some "r", "x", "x", "x",
   "x", Option.none, Option.none, Option.none,
   "x", "x", "x", "x",
   "x", "x", "x", "x",
   "x", "x", "x", "x",
   some "s", "x", "x", "x",
   "x", "x", "x", "x",
   "x", "x", "x", ChargeType.Usage,
   "x", "x", ⟨25, 2⟩, "1",
   PyFloat.zero, ⟨0, 1⟩, ⟨5, 2⟩, "x",
   "x", "x", "x", "x",
   "x", some "k:v", "x", "x",
   "x", "x", "x", "x",
   "x", "x", "x", "x",
   "x"⟩

end CloudBilling

namespace CloudBilling

/-! ## Pagination lemmas (Alibaba) -/

theorem pagesConcat_eq_flatMap {α : Type} (provider : Nat → BillPage α) :
    ∀ (n i : Nat),
      pagesConcat provider i n = (List.range n).flatMap (fun k => (provider (i + k)).Items) := by
  intro n
  induction n with
  | zero => intro i; simp [pagesConcat]
  | succ m ih =>
    intro i
    rw [List.range_succ_eq_map]
    simp only [pagesConcat, List.flatMap_cons, List.flatMap_map, Nat.add_zero, ih (i + 1)]
    have hfg : (fun a : Nat => (provider (i + 1 + a)).Items)
        = fun a : Nat => (provider (i + Nat.succ a)).Items := by
      funext a
      have he : i + 1 + a = i + Nat.succ a := by omega
      rw [he]
    rw [hfg]

theorem fetchBillLoop_done {α : Type} (provider : Nat → BillPage α) :
    ∀ (n fuel i : Nat) (acc : List α), 0 < n → n ≤ fuel →
      (∀ k, k + 1 < n → _has_more_data (provider (i + k)).NextToken = true) →
      _has_more_data (provider (i + (n - 1))).NextToken = false →
      fetchBillLoop provider fuel i acc = .done (acc ++ pagesConcat provider i n) (i + n) := by
  intro n
  induction n with
  | zero => intro fuel i acc h0; omega
  | succ m ih =>
    intro fuel i acc _ hfuel hmid hlast
    match fuel, hfuel with
    | f + 1, _ =>
      show (if _has_more_data (provider i).NextToken then
              fetchBillLoop provider f (i + 1) (acc ++ (provider i).Items)
            else .done (acc ++ (provider i).Items) (i + 1)) = _
      by_cases hm : m = 0
      · subst hm
        have h0 : _has_more_data (provider (i + 0)).NextToken = false := hlast
        rw [Nat.add_zero] at h0
        rw [if_neg (by simp [h0])]
        simp [pagesConcat]
      · have h0 : _has_more_data (provider (i + 0)).NextToken = true := hmid 0 (by omega)
        rw [Nat.add_zero] at h0
        rw [if_pos h0]
        have hmid' : ∀ k, k + 1 < m → _has_more_data (provider (i + 1 + k)).NextToken = true := by
          intro k hk
          have h := hmid (k + 1) (by omega)
          have he : i + (k + 1) = i + 1 + k := by omega
          rwa [he] at h
        have hlast' : _has_more_data (provider (i + 1 + (m - 1))).NextToken = false := by
          have he : i + (m + 1 - 1) = i + 1 + (m - 1) := by omega
          rwa [he] at hlast
        have := ih f (i + 1) (acc ++ (provider i).Items) (by omega) (by omega) hmid' hlast'
        rw [this]
        have he : i + 1 + m = i + (m + 1) := by omega
        rw [he, pagesConcat, List.append_assoc]

theorem fetchAmortizedLoop_done {α : Type} (provider : Nat → BillPage α) :
    ∀ (n fuel i : Nat) (acc : List α), 0 < n → n ≤ fuel →
      (∀ k, k + 1 < n → _has_more_data (provider (i + k)).NextToken = true) →
      _has_more_data (provider (i + (n - 1))).NextToken = false →
      fetchAmortizedLoop provider fuel i acc = .done (acc ++ pagesConcat provider i n) (i + n) := by
  intro n
  induction n with
  | zero => intro fuel i acc h0; omega
  | succ m ih =>
    intro fuel i acc _ hfuel hmid hlast
    match fuel, hfuel with
    | f + 1, _ =>
      show (if _has_more_data (provider i).NextToken then
              fetchAmortizedLoop provider f (i + 1) (acc ++ (provider i).Items)
            else .done (acc ++ (provider i).Items) (i + 1)) = _
      by_cases hm : m = 0
      · subst hm
        have h0 : _has_more_data (provider (i + 0)).NextToken = false := hlast
        rw [Nat.add_zero] at h0
        rw [if_neg (by simp [h0])]
        simp [pagesConcat]
      · have h0 : _has_more_data (provider (i + 0)).NextToken = true := hmid 0 (by omega)
        rw [Nat.add_zero] at h0
        rw [if_pos h0]
        have hmid' : ∀ k, k + 1 < m → _has_more_data (provider (i + 1 + k)).NextToken = true := by
          intro k hk
          have h := hmid (k + 1) (by omega)
          have he : i + (k + 1) = i + 1 + k := by omega
          rwa [he] at h
        have hlast' : _has_more_data (provider (i + 1 + (m - 1))).NextToken = false := by
          have he : i + (m + 1 - 1) = i + 1 + (m - 1) := by omega
          rwa [he] at hlast
        have := ih f (i + 1) (acc ++ (provider i).Items) (by omega) (by omega) hmid' hlast'
        rw [this]
        have he : i + 1 + m = i + (m + 1) := by omega
        rw [he, pagesConcat, List.append_assoc]

theorem fetchBillLoop_running {α : Type} (provider : Nat → BillPage α)
    (hall : ∀ i, _has_more_data (provider i).NextToken = true) :
    ∀ (fuel i : Nat) (acc : List α),
      fetchBillLoop provider fuel i acc
        = .running (acc ++ pagesConcat provider i fuel) (i + fuel) := by
  intro fuel
  induction fuel with
  | zero => intro i acc; simp [fetchBillLoop, pagesConcat]
  | succ f ih =>
    intro i acc
    show (if _has_more_data (provider i).NextToken then
            fetchBillLoop provider f (i + 1) (acc ++ (provider i).Items)
          else .done (acc ++ (provider i).Items) (i + 1)) = _
    rw [if_pos (hall i), ih (i + 1) (acc ++ (provider i).Items)]
    have he : i + 1 + f = i + (f + 1) := by omega
    rw [he, pagesConcat, List.append_assoc]

theorem fetchAmortizedLoop_running {α : Type} (provider : Nat → BillPage α)
    (hall : ∀ i, _has_more_data (provider i).NextToken = true) :
    ∀ (fuel i : Nat) (acc : List α),
      fetchAmortizedLoop provider fuel i acc
        = .running (acc ++ pagesConcat provider i fuel) (i + fuel) := by
  intro fuel
  induction fuel with
  | zero => intro i acc; simp [fetchAmortizedLoop, pagesConcat]
  | succ f ih =>
    intro i acc
    show (if _has_more_data (provider i).NextToken then
            fetchAmortizedLoop provider f (i + 1) (acc ++ (provider i).Items)
          else .done (acc ++ (provider i).Items) (i + 1)) = _
    rw [if_pos (hall i), ih (i + 1) (acc ++ (provider i).Items)]
    have he : i + 1 + f = i + (f + 1) := by omega
    rw [he, pagesConcat, List.append_assoc]

/-- C2: for every valid billing cycle and every provider that serves `n ≥ 1`
pages whose first `n-1` cursors are non-blank and whose last cursor is
absent or blank, `fetch_instance_bill_by_billing_cycle` returns the
order-preserving concatenation of the pages' `Items`, issuing exactly `n`
requests (so a present-but-blank cursor stops the loop without a further
request); the total count equals the sum of per-page counts, and a
present-but-blank/whitespace `NextToken` is never treated as more data. -/
theorem alibaba_fetch_concatenates_pages {α : Type} (billing_cycle : String)
    (provider : Nat → BillPage α) (n fuel : Nat)
    (hcycle : matchesBillingCycle billing_cycle = true)
    (hn : 0 < n) (hfuel : n ≤ fuel)
    (hmid : ∀ k, k + 1 < n → _has_more_data (provider k).NextToken = true)
    (hlast : _has_more_data (provider (n - 1)).NextToken = false) :
    fetch_instance_bill_by_billing_cycle billing_cycle provider fuel
        = .ok (.done ((List.range n).flatMap (fun k => (provider k).Items)) n)
      ∧ ((List.range n).flatMap (fun k => (provider k).Items)).length
          = ((List.range n).map (fun k => (provider k).Items.length)).sum
      ∧ (∀ t : String, pyStrip t = "" → _has_more_data (some t) = false) := by
  refine ⟨?_, ?_, ?_⟩
  · have hmain := fetchBillLoop_done provider n fuel 0 [] hn hfuel
      (by intro k hk; simpa using hmid k hk) (by simpa using hlast)
    have h2 : pagesConcat provider 0 n = (List.range n).flatMap (fun k => (provider k).Items) := by
      rw [pagesConcat_eq_flatMap]
      simp
    simp [fetch_instance_bill_by_billing_cycle, hcycle, hmain, h2]
  · rw [List.length_flatMap]
    rfl
  · intro t ht
    simp [_has_more_data, ht]

/-- C2 witness: the two-page scenario (3 items then 2 items, second cursor
blank) returns the five items in order with exactly two requests. -/
theorem alibaba_fetch_concatenates_pages_witness :
    fetch_instance_bill_by_billing_cycle "2025-12" twoPageProvider 10
        = .ok (.done ((List.range 2).flatMap (fun k => (twoPageProvider k).Items)) 2)
      ∧ ((List.range 2).flatMap (fun k => (twoPageProvider k).Items)).length
          = ((List.range 2).map (fun k => (twoPageProvider k).Items.length)).sum
      ∧ (∀ t : String, pyStrip t = "" → _has_more_data (some t) = false) :=
  alibaba_fetch_concatenates_pages "2025-12" twoPageProvider 2 10 (by decide) (by decide)
    (by decide)
    (by
      intro k hk
      have hk0 : k = 0 := by omega
      subst hk0
      decide)
    (by decide)

/-- C4: every billing-cycle string rejected by the `^\d{4}-\d{2}$` check
makes both fetch entry points fail with the `InvalidArgument`-style error
naming the offending value; the result does not depend on the provider or
on the fuel, i.e. no remote call is consulted. -/
theorem alibaba_invalid_cycle_rejected {α : Type} (s : String)
    (hbad : matchesBillingCycle s = false) (provider : Nat → BillPage α) (fuel : Nat) :
    fetch_instance_bill_by_billing_cycle s provider fuel
        = .error s!"Invalid billing cycle format: {s}, expected YYYY-MM"
      ∧ fetch_instance_amortized_cost_by_amortization_period s provider fuel
        = .error s!"Invalid billing cycle format: {s}, expected YYYY-MM" := by
  constructor <;>
    simp [fetch_instance_bill_by_billing_cycle,
      fetch_instance_amortized_cost_by_amortization_period, hbad]

/-- C4 witness: the malformed cycle `"2025/12"` is rejected by both fetch
entry points. -/
theorem alibaba_invalid_cycle_rejected_witness :
    fetch_instance_bill_by_billing_cycle "2025/12" twoPageProvider 3
        = .error s!"Invalid billing cycle format: 2025/12, expected YYYY-MM"
      ∧ fetch_instance_amortized_cost_by_amortization_period "2025/12" twoPageProvider 3
        = .error s!"Invalid billing cycle format: 2025/12, expected YYYY-MM" :=
  alibaba_invalid_cycle_rejected "2025/12" (by decide) twoPageProvider 3

/-- C5 counterexample: under a provider that returns the same non-blank
cursor `"tok"` on every page, the fetch has already seen the identical
cursor on consecutive pages after its second request, yet after five
requests it is still looping (`running`) and no loop-detected error has
been produced -- the code has no such guard. -/
theorem alibaba_loop_guard_counterexample :
    fetch_instance_bill_by_billing_cycle "2025-12" constCursorProvider 5
        = .ok (.running [7, 7, 7, 7, 7] 5)
      ∧ fetch_instance_amortized_cost_by_amortization_period "2025-12" constCursorProvider 5
        = .ok (.running [7, 7, 7, 7, 7] 5) := by
  constructor <;> rfl

/-- C5 amended: neither pagination loop contains a repeated-cursor guard:
under a provider whose every page carries a non-blank cursor (in
particular one that repeats the same cursor forever) the loop never
exits -- after any amount `fuel` of iterations it is still running, has
issued `fuel` requests, and has raised no error. -/
theorem alibaba_no_loop_guard {α : Type} (billing_cycle : String)
    (hcycle : matchesBillingCycle billing_cycle = true)
    (provider : Nat → BillPage α)
    (hall : ∀ i, _has_more_data (provider i).NextToken = true) (fuel : Nat) :
    fetch_instance_bill_by_billing_cycle billing_cycle provider fuel
        = .ok (.running (pagesConcat provider 0 fuel) fuel)
      ∧ fetch_instance_amortized_cost_by_amortization_period billing_cycle provider fuel
        = .ok (.running (pagesConcat provider 0 fuel) fuel) := by
  constructor
  · simp [fetch_instance_bill_by_billing_cycle, hcycle,
      fetchBillLoop_running provider hall fuel 0 []]
  · simp [fetch_instance_amortized_cost_by_amortization_period, hcycle,
      fetchAmortizedLoop_running provider hall fuel 0 []]

/-- C5 amended witness: the constant-cursor adversarial provider keeps
both loops running after three iterations. -/
theorem alibaba_no_loop_guard_witness :
    fetch_instance_bill_by_billing_cycle "2025-12" constCursorProvider 3
        = .ok (.running (pagesConcat constCursorProvider 0 3) 3)
      ∧ fetch_instance_amortized_cost_by_amortization_period "2025-12" constCursorProvider 3
        = .ok (.running (pagesConcat constCursorProvider 0 3) 3) :=
  alibaba_no_loop_guard "2025-12" (by decide) constCursorProvider (fun _ => rfl) 3

/-! ## Azure client theorems -/

/-- C1: with a usable token, `check_ri_report_once` issues exactly one
GET (no sleeping or retry looping is even expressible: the result is a
function of that single exchange) and maps the response as: 202 is
pending; 200 with a whitespace-only body is pending; 200 with the JSON
body `{"status": "Completed", "manifest": {"blobs": [{"blobLink": url}]}}`
is completed with that link; 200 with `{"status": "Completed",
"manifest": {}}` is the completed-but-no-link error; any other status
(e.g. 500) is an error naming the HTTP status. -/
theorem azure_poll_once_cases (t location_url : String) (ht : t ≠ "")
    (net : HttpRequest → HttpResponse) (r : HttpResponse)
    (hr : net (authGetRequest location_url t) = r) :
    (check_ri_report_once none location_url (some t) net).2 = [authGetRequest location_url t]
      ∧ (r.statusCode = 202 →
          (check_ri_report_once none location_url (some t) net).1 = .pending)
      ∧ (r.statusCode = 200 → pyStrip r.text = "" →
          (check_ri_report_once none location_url (some t) net).1 = .pending)
      ∧ (∀ url : String, r.statusCode = 200 → pyStrip r.text ≠ "" →
          r.jsonBody = some (completedBody url) →
          (check_ri_report_once none location_url (some t) net).1
            = .completed (some (.str url)))
      ∧ (r.statusCode = 200 → pyStrip r.text ≠ "" → r.jsonBody = some completedNoBlobsBody →
          (check_ri_report_once none location_url (some t) net).1
            = .error "Report completed but no CSV link found")
      ∧ (r.statusCode ≠ 200 → r.statusCode ≠ 202 →
          (check_ri_report_once none location_url (some t) net).1
            = .error s!"Unexpected status code: {r.statusCode}") := by
  have hpick : pickToken (some t) none = some t := by
    simp [pickToken, truthyStr, ht]
  refine ⟨?_, ?_, ?_, ?_, ?_, ?_⟩
  · simp [check_ri_report_once, hpick]
  · intro h202
    simp [check_ri_report_once, hpick, hr, checkResponseOnce, h202]
  · intro h200 hblank
    simp [check_ri_report_once, hpick, hr, checkResponseOnce, h200, hblank]
  · intro url h200 hblank hbody
    simp [check_ri_report_once, hpick, hr, checkResponseOnce, h200, hblank, hbody,
      completedBody, _parse_blob_response, jsonLookup, classifyBlob, jsonIsStr, jsonGet?,
      jTruthy, jsonIndex0]
  · intro h200 hblank hbody
    simp [check_ri_report_once, hpick, hr, checkResponseOnce, h200, hblank, hbody,
      completedNoBlobsBody, _parse_blob_response, jsonLookup, classifyBlob, jsonIsStr,
      jsonGet?, jTruthy]
  · intro hn200 hn202
    simp [check_ri_report_once, hpick, hr, checkResponseOnce, hn200, hn202]

/-- C1 witness: against an endpoint that always answers 202, one request
is issued and the result is pending. -/
theorem azure_poll_once_cases_witness :
    (check_ri_report_once none "https://x/report1" (some "T") net202).2
        = [authGetRequest "https://x/report1" "T"]
      ∧ (exPollResponse.statusCode = 202 →
          (check_ri_report_once none "https://x/report1" (some "T") net202).1 = .pending)
      ∧ (exPollResponse.statusCode = 200 →
          pyStrip exPollResponse.text = "" →
          (check_ri_report_once none "https://x/report1" (some "T") net202).1 = .pending)
      ∧ (∀ url : String, exPollResponse.statusCode = 200 →
          pyStrip exPollResponse.text ≠ "" →
          exPollResponse.jsonBody = some (completedBody url) →
          (check_ri_report_once none "https://x/report1" (some "T") net202).1
            = .completed (some (.str url)))
      ∧ (exPollResponse.statusCode = 200 →
          pyStrip exPollResponse.text ≠ "" →
          exPollResponse.jsonBody = some completedNoBlobsBody →
          (check_ri_report_once none "https://x/report1" (some "T") net202).1
            = .error "Report completed but no CSV link found")
      ∧ (exPollResponse.statusCode ≠ 200 →
          exPollResponse.statusCode ≠ 202 →
          (check_ri_report_once none "https://x/report1" (some "T") net202).1
            = .error s!"Unexpected status code: {exPollResponse.statusCode}") :=
  azure_poll_once_cases "T" "https://x/report1" (by decide) net202
    exPollResponse rfl

/-- C9: a 200 response with a non-blank JSON body whose `status` field is
present but different from `"Completed"` (e.g. `"InProgress"`) is
classified as pending, not as an error. -/
theorem azure_poll_once_not_completed_pending (t location_url : String) (ht : t ≠ "")
    (net : HttpRequest → HttpResponse) (r : HttpResponse)
    (hr : net (authGetRequest location_url t) = r)
    (h200 : r.statusCode = 200) (hblank : pyStrip r.text ≠ "")
    (fields : List (String × Json)) (hjson : r.jsonBody = some (.obj fields))
    (js : Json) (hs : jsonLookup fields "status" = some js)
    (hnc : jsonIsStr js "Completed" = false) :
    (check_ri_report_once none location_url (some t) net).1 = CheckResult.pending := by
  have hpick : pickToken (some t) none = some t := by
    simp [pickToken, truthyStr, ht]
  simp [check_ri_report_once, hpick, hr, checkResponseOnce, h200, hblank, hjson,
    _parse_blob_response, hs, classifyBlob, hnc]

/-- C9 witness: the body `{"status": "InProgress"}` yields pending. -/
theorem azure_poll_once_not_completed_pending_witness :
    (check_ri_report_once none "L" (some "T")
        (fun _ => ⟨200, "x", some (.obj [("status", .str "InProgress")]), none⟩)).1
      = CheckResult.pending :=
  azure_poll_once_not_completed_pending "T" "L" (by decide)
    (fun _ => ⟨200, "x", some (.obj [("status", .str "InProgress")]), none⟩)
    ⟨200, "x", some (.obj [("status", .str "InProgress")]), none⟩ rfl rfl (by decide)
    [("status", .str "InProgress")] rfl (.str "InProgress") rfl (by decide)

/-- C3: with a usable token, `get_ri_location` issues one POST and
returns a location URL exactly when the response is a 202 carrying a
`Location` header; a 202 without the header yields the missing-header
error, and any other status yields the start error carrying the status
code and, when the body decodes as JSON, the parsed error body. -/
theorem azure_start_report_cases (t acc sd ed m : String) (ht : t ≠ "")
    (net : HttpRequest → HttpResponse) (r : HttpResponse)
    (hr : net (locationRequest acc sd ed m t) = r) :
    (get_ri_location none acc sd ed m (some t) net).2 = [locationRequest acc sd ed m t]
      ∧ (get_ri_location none acc sd ed m (some t) net).1.1
          = (if r.statusCode = 202 then r.locationHeader else none)
      ∧ (∀ loc, r.statusCode = 202 → r.locationHeader = some loc →
          (get_ri_location none acc sd ed m (some t) net).1 = (some loc, none))
      ∧ (r.statusCode = 202 → r.locationHeader = none →
          (get_ri_location none acc sd ed m (some t) net).1
            = (none, some "Location header not found in response"))
      ∧ (∀ j, r.statusCode ≠ 202 → r.jsonBody = some j →
          (get_ri_location none acc sd ed m (some t) net).1
            = (none, some (s!"Request failed with status code: {r.statusCode}"
                ++ ", details: " ++ Json.render j)))
      ∧ (r.statusCode ≠ 202 → r.jsonBody = none →
          (get_ri_location none acc sd ed m (some t) net).1
            = (none, some s!"Request failed with status code: {r.statusCode}")) := by
  have hpick : pickToken (some t) none = some t := by
    simp [pickToken, truthyStr, ht]
  refine ⟨?_, ?_, ?_, ?_, ?_, ?_⟩
  · by_cases h202 : r.statusCode = 202
    · cases hloc : r.locationHeader <;>
        simp [get_ri_location, hpick, hr, h202, hloc]
    · simp [get_ri_location, hpick, hr, h202]
  · by_cases h202 : r.statusCode = 202
    · cases hloc : r.locationHeader <;>
        simp [get_ri_location, hpick, hr, h202, hloc]
    · simp [get_ri_location, hpick, hr, h202]
  · intro loc h202 hloc
    simp [get_ri_location, hpick, hr, h202, hloc]
  · intro h202 hloc
    simp [get_ri_location, hpick, hr, h202, hloc]
  · intro j h202 hj
    simp [get_ri_location, hpick, hr, h202, hj, failDetails]
  · intro h202 hj
    simp [get_ri_location, hpick, hr, h202, hj, failDetails]

/-- C3 witness: a 202 answer carrying `Location: https://x/report1`
returns that URL. -/
theorem azure_start_report_cases_witness :
    (get_ri_location none "B" "2025-01-01" "2025-01-31" "ActualCost" (some "T") netLocation).2
        = [locationRequest "B" "2025-01-01" "2025-01-31" "ActualCost" "T"]
      ∧ (get_ri_location none "B" "2025-01-01" "2025-01-31" "ActualCost" (some "T") netLocation).1.1
          = (if exLocResponse.statusCode = 202
              then exLocResponse.locationHeader
              else none)
      ∧ (∀ loc, exLocResponse.statusCode = 202 →
          exLocResponse.locationHeader = some loc →
          (get_ri_location none "B" "2025-01-01" "2025-01-31" "ActualCost" (some "T") netLocation).1
            = (some loc, none))
      ∧ (exLocResponse.statusCode = 202 →
          exLocResponse.locationHeader = none →
          (get_ri_location none "B" "2025-01-01" "2025-01-31" "ActualCost" (some "T") netLocation).1
            = (none, some "Location header not found in response"))
      ∧ (∀ j, exLocResponse.statusCode ≠ 202 →
          exLocResponse.jsonBody = some j →
          (get_ri_location none "B" "2025-01-01" "2025-01-31" "ActualCost" (some "T") netLocation).1
            = (none, some (s!"Request failed with status code: {exLocResponse.statusCode}"
                ++ ", details: " ++ Json.render j)))
      ∧ (exLocResponse.statusCode ≠ 202 →
          exLocResponse.jsonBody = none →
          (get_ri_location none "B" "2025-01-01" "2025-01-31" "ActualCost" (some "T") netLocation).1
            = (none, some s!"Request failed with status code: {exLocResponse.statusCode}")) :=
  azure_start_report_cases "T" "B" "2025-01-01" "2025-01-31" "ActualCost" (by decide) netLocation
    exLocResponse rfl

/-- C7 counterexample: `download_ri_csv`, given a usable token, issues
its single GET with an empty header list -- no `Authorization` header is
sent, contrary to the claim that the bearer header is attached
defensively (the source calls `self.session.get(csv_url, timeout=60)`
with no headers argument). -/
theorem azure_download_no_auth_header :
    download_ri_csv none "https://blob/report.csv" (some "T") netBytes
        = ((some "csvbytes", none), [⟨"GET", "https://blob/report.csv", [], none⟩])
      ∧ (download_ri_csv none "https://blob/report.csv" (some "T") netBytes).2.map
          HttpRequest.headers = [[]] :=
  ⟨rfl, rfl⟩

/-- C7 amended: with a usable token, `download_ri_csv` issues exactly one
GET of the blob URL with no headers at all (in particular no bearer
`Authorization` header, although a usable token is still required);
HTTP 200 returns the raw response content, and any other status yields
the fatal download error carrying the status code and, when the body
decodes as JSON, the parsed error body. -/
theorem azure_download_cases (t url : String) (ht : t ≠ "")
    (net : HttpRequest → HttpResponse) (r : HttpResponse)
    (hr : net ⟨"GET", url, [], none⟩ = r) :
    (download_ri_csv none url (some t) net).2 = [⟨"GET", url, [], none⟩]
      ∧ (download_ri_csv none url (some t) net).2.map HttpRequest.headers = [[]]
      ∧ (r.statusCode = 200 →
          (download_ri_csv none url (some t) net).1 = (some r.text, none))
      ∧ (∀ j, r.statusCode ≠ 200 → r.jsonBody = some j →
          (download_ri_csv none url (some t) net).1
            = (none, some (s!"Failed to download CSV, status code: {r.statusCode}"
                ++ ", details: " ++ Json.render j)))
      ∧ (r.statusCode ≠ 200 → r.jsonBody = none →
          (download_ri_csv none url (some t) net).1
            = (none, some s!"Failed to download CSV, status code: {r.statusCode}")) := by
  have hpick : pickToken (some t) none = some t := by
    simp [pickToken, truthyStr, ht]
  refine ⟨?_, ?_, ?_, ?_, ?_⟩
  · by_cases h200 : r.statusCode = 200 <;> simp [download_ri_csv, hpick, hr, h200]
  · by_cases h200 : r.statusCode = 200 <;> simp [download_ri_csv, hpick, hr, h200]
  · intro h200
    simp [download_ri_csv, hpick, hr, h200]
  · intro j h200 hj
    simp [download_ri_csv, hpick, hr, h200, hj, failDetails]
  · intro h200 hj
    simp [download_ri_csv, hpick, hr, h200, hj, failDetails]

/-- C7 amended witness: downloading from an endpoint answering 200 with
content `"csvbytes"`. -/
theorem azure_download_cases_witness :
    (download_ri_csv none "https://blob/report.csv" (some "T") netBytes).2
        = [⟨"GET", "https://blob/report.csv", [], none⟩]
      ∧ (download_ri_csv none "https://blob/report.csv" (some "T") netBytes).2.map
          HttpRequest.headers = [[]]
      ∧ (exDownloadResponse.statusCode = 200 →
          (download_ri_csv none "https://blob/report.csv" (some "T") netBytes).1
            = (some exDownloadResponse.text, none))
      ∧ (∀ j, exDownloadResponse.statusCode ≠ 200 →
          exDownloadResponse.jsonBody = some j →
          (download_ri_csv none "https://blob/report.csv" (some "T") netBytes).1
            = (none, some (s!"Failed to download CSV, status code: {exDownloadResponse.statusCode}"
                ++ ", details: " ++ Json.render j)))
      ∧ (exDownloadResponse.statusCode ≠ 200 →
          exDownloadResponse.jsonBody = none →
          (download_ri_csv none "https://blob/report.csv" (some "T") netBytes).1
            = (none, some s!"Failed to download CSV, status code: {exDownloadResponse.statusCode}")) :=
  azure_download_cases "T" "https://blob/report.csv" (by decide) netBytes
    exDownloadResponse rfl

/-- C10: each of the five token-taking Azure operations, called with no
token argument and no cached token, returns the
`"No valid access token provided"` error and issues no request at all
(the request list is empty, the retry loop makes zero attempts). -/
theorem azure_missing_token_guard (acc sd ed m loc url : String) (mr : Nat)
    (net : HttpRequest → HttpResponse) (netN : Nat → HttpResponse) :
    get_ri_location none acc sd ed m none net
        = ((none, some "No valid access token provided"), [])
      ∧ get_ri_report none loc none net
        = ((none, some "No valid access token provided"), [])
      ∧ check_ri_report_once none loc none net
        = (.error "No valid access token provided", [])
      ∧ get_ri_csv_url none loc none mr netN
        = ((none, some "No valid access token provided"), 0)
      ∧ download_ri_csv none url none net
        = ((none, some "No valid access token provided"), []) :=
  ⟨rfl, rfl, rfl, rfl, rfl⟩

/-! ## BillingRecord and CSV-parse theorems -/

theorem chargeType_ofString_value (ct : ChargeType) :
    ChargeType.ofString? ct.value = some ct := by
  cases ct <;> rfl

theorem parse_float_num (q : PyFloat) : parse_float (.num q) = .ok q := by
  by_cases h : q = PyFloat.zero <;> simp [parse_float, pyFalsy, h]

theorem optStrVal_dump (a : Option String) : optStrVal (dumpOptStr a) = .ok a := by
  cases a <;> rfl

theorem except_ok_bind {ε α β : Type} (x : α) (f : α → Except ε β) :
    (Except.ok x : Except ε α) >>= f = f x := rfl

theorem yieldRows_stops (good : List Row) (bad : Row) (rest : List Row) (e : String)
    (hgood : ∀ r ∈ good, ∃ v, BillingRecord.model_validate r = .ok v)
    (hbad : BillingRecord.model_validate bad = .error e) :
    yieldRows (good ++ bad :: rest)
      = good.map (fun r => ((BillingRecord.model_validate r).toOption, Option.none))
        ++ [(Option.none, some s!"Error converting CSV to records: {e}")] := by
  induction good with
  | nil => simp [yieldRows, hbad]
  | cons g gs ih =>
    obtain ⟨v, hv⟩ := hgood g (by simp)
    simp [yieldRows, hv, Except.toOption, ih (fun r hr => hgood r (by simp [hr]))]

set_option maxRecDepth 10000 in
/-- C6 counterexample: on a CSV holding a well-formed row, then a
malformed row (`chargeType` = `Weird`), then another well-formed row, the
parse stage yields the first well-formed record and then the error -- the
well-formed row preceding the malformed one IS yielded (and the row after
it is not processed), so the parse is not an all-or-nothing failure. -/
theorem azure_parse_csv_partial_yield :
    (get_ri_csv_as_json_parse exCsvContent).map (fun p => (p.1.isSome, p.2.isSome))
      = [(true, false), (false, true)] := by decide

/-- C6 amended: the parse stage decodes with BOM stripping, takes the
first line as header, and validates rows in order; on the first malformed
row it yields a decode error and stops, with no further row processed --
but the well-formed rows before the malformed one have already been
yielded as records. -/
theorem azure_parse_csv_stops_at_first_malformed (content : String)
    (good : List Row) (bad : Row) (rest : List Row) (e : String)
    (hrows : dictReaderRows (stripBom content) = good ++ bad :: rest)
    (hgood : ∀ r ∈ good, ∃ v, BillingRecord.model_validate r = .ok v)
    (hbad : BillingRecord.model_validate bad = .error e) :
    get_ri_csv_as_json_parse content
      = good.map (fun r => ((BillingRecord.model_validate r).toOption, Option.none))
        ++ [(Option.none, some s!"Error converting CSV to records: {e}")] := by
  rw [get_ri_csv_as_json_parse, hrows]
  exact yieldRows_stops good bad rest e hgood hbad

set_option maxRecDepth 10000 in
/-- C6 amended witness: the concrete three-data-row CSV yields the first
record and then the chargeType validation error. -/
theorem azure_parse_csv_stops_at_first_malformed_witness :
    get_ri_csv_as_json_parse exCsvContent
      = [goodRow].map (fun r => ((BillingRecord.model_validate r).toOption, Option.none))
        ++ [(Option.none,
             some "Error converting CSV to records: chargeType: Input should be a valid ChargeType")] :=
  azure_parse_csv_stops_at_first_malformed exCsvContent [goodRow] badRow [goodRow]
    "chargeType: Input should be a valid ChargeType"
    (by decide)
    (by
      intro r hr
      simp only [List.mem_singleton] at hr
      subst hr
      exact ⟨_, rfl⟩)
    (by decide)

set_option maxRecDepth 10000 in
/-- C8 counterexample: the row with `date` cell `01/31/2025` parses to a
record with a non-null billing date, but re-validating its re-serialized
form yields a record whose billing date is null: the serialization writes
ISO `2025-01-31`, which `parse_date` (expecting `MM/DD/YYYY`) coerces to
`None` -- the field values are not identical after the round trip. -/
theorem azure_record_roundtrip_counterexample :
    (BillingRecord.model_validate goodRow).map (fun r => r.billing_date)
        = .ok (some ⟨2025, 1, 31⟩)
      ∧ ((BillingRecord.model_validate goodRow).bind
            (fun r => BillingRecord.model_validate (BillingRecord.model_dump r))).map
          (fun r => r.billing_date)
        = .ok Option.none := by
  exact ⟨by decide, by decide⟩

/-- C8 amended: for every record whose three date fields are null,
re-validating the re-serialized record reproduces it exactly: the float
coercion is idempotent and every non-date field round-trips; a non-null
date does not survive (see the counterexample), because its ISO
serialization is rejected by the `MM/DD/YYYY` parser and coerced to
null. -/
theorem azure_record_roundtrip_amended (r : BillingRecord)
    (h1 : r.servicePeriodStartDate = Option.none)
    (h2 : r.servicePeriodEndDate = Option.none)
    (h3 : r.billing_date = Option.none) :
    BillingRecord.model_validate (BillingRecord.model_dump r) = .ok r := by
  have hd1 : parse_date (dumpDate r.servicePeriodStartDate) = .ok r.servicePeriodStartDate := by
    rw [h1]; rfl
  have hd2 : parse_date (dumpDate r.servicePeriodEndDate) = .ok r.servicePeriodEndDate := by
    rw [h2]; rfl
  have hd3 : parse_date (dumpDate r.billing_date) = .ok r.billing_date := by
    rw [h3]; rfl
  simp [BillingRecord.model_validate, BillingRecord.model_dump, reqStr, optStr, rowGet,
    optDateField, reqDateField, floatValidatedField, laxFloat, chargeTypeField,
    hd1, hd2, hd3, optStrVal_dump, parse_float_num, chargeType_ofString_value,
    except_ok_bind]

/-- C8 amended witness: a concrete record with null dates round-trips. -/
theorem azure_record_roundtrip_amended_witness :
    BillingRecord.model_validate (BillingRecord.model_dump exRecord) = .ok exRecord :=
  azure_record_roundtrip_amended exRecord rfl rfl rfl

end CloudBilling
